import Mathlib

/-!
Shallow embedding of the verified parts of the blender-addons repository:

* `rigify/rigs/face/basic_tongue.py` — the basic tongue chain rig
  (follow chain construction, constraint influences, tweak parenting,
  chain-length validation, parameters);
* `io_scene_gltf2/.../gltf2_blender_gather_materials_sheen.py` — the
  KHR_materials_sheen material exporter;
* `io_import_dxf/dxfgrabber/const.py` — the AutoCAD/DXF version tables.

Machine floats of the Python sources are modelled as rationals; host-API
bone objects are modelled by their names, and dictionaries by association
lists or records of optional fields.
-/

/-! ### Basic tongue rig (rigify/rigs/face/basic_tongue.py) -/

/-- Literal translation of `Rig.min_chain_length = 3`. -/
def min_chain_length : Nat := 3

/-- Modelled from the spec: the derived-name helper `make_derived_name`
from `rigify/utils/naming.py` is not under src/; the spec only requires
that each derived bone gets a fresh name tagged with its subtype, so the
model prefixes the subtype tag to the original name. -/
def make_derived_name (org subtype : String) : String := subtype ++ "." ++ org

/-- Translation of `Rig.make_follow_chain` together with
`Rig.make_mch_follow_bone` (basic_tongue.py lines 75-83): one mch bone is
created per original bone after the first, by `map_list` over
`self.bones.org[1:]`; geometric side effects (`copy_bone_position`,
`flip_bone`) touch only the armature, not the returned names. -/
def make_follow_chain (org : List String) : List String :=
  (org.drop 1).map (fun o => make_derived_name o "mch")

/-- Modelled from the spec: the tweak chain is inherited from the base
chain template (`rigify/rigs/chain_rigs.py`, not under src/); section 4.1
of the spec states one tweak bone per original bone. -/
def make_tweak_chain (org : List String) : List String :=
  org.map (fun o => make_derived_name o "tweak")

/-- A bone constraint as created by `self.make_constraint`. -/
structure Constraint where
  owner : String
  ctype : String
  target : String
  influence : ℚ
deriving DecidableEq

/-- Translation of `Rig.rig_follow_chain` (basic_tongue.py lines 90-96):
for each follow bone, indexed by `enumerate`, a COPY_TRANSFORMS constraint
targeting the master control with influence `1 - (1 + i) / num_orgs`. -/
def rig_follow_chain (org : List String) (master : String)
    (follow : List String) : List Constraint :=
  follow.enum.map
    (fun p => ⟨p.2, "COPY_TRANSFORMS", master,
               1 - (1 + (p.1 : ℚ)) / (org.length : ℚ)⟩)

/-- The constraints produced for a given org chain once the generate and
rig stages have run: the follow chain is built by `make_follow_chain` and
then wired by `rig_follow_chain`. -/
def tongue_constraints (org : List String) (master : String) : List Constraint :=
  rig_follow_chain org master (make_follow_chain org)

/-- Influence of the i-th produced constraint (0 when out of range). -/
def influence_at (cs : List Constraint) (i : Nat) : ℚ :=
  ((cs[i]?).map Constraint.influence).getD 0

/-- Translation of `Rig.parent_tweak_chain` (basic_tongue.py lines
101-106): `parents = [ctrl.master, *mch.follow, rig_parent_bone]` zipped
with the tweak chain, yielding the list of (tweak, parent) assignments
performed by `set_bone_parent`. -/
def parent_tweak_chain (master root : String)
    (follow tweak : List String) : List (String × String) :=
  tweak.zip (master :: (follow ++ [root]))

/-- Modelled from the spec: the chain-length validation lives in the
rigify base generator (not under src/); per spec section 4.1/7, a chain
shorter than `min_chain_length` aborts this rig with a configuration
error and creates no bones, otherwise the generate stages run (master
control from org[0], follow chain, tweak chain). -/
def build_rig (chain : List String) : Except String (List String) :=
  if chain.length < min_chain_length then
    Except.error "Input to rig type must be a chain of 3 or more bones"
  else
    match chain with
    | [] => Except.ok []
    | o :: _ =>
      Except.ok (make_derived_name o "ctrl" ::
        (make_follow_chain chain ++ make_tweak_chain chain))

/-- Modelled from the spec: the generator processes each rig of the
armature independently, collecting one per-rig result (bones or a
reported error) per input chain. -/
def build_all (rigs : List (List String)) : List (Except String (List String)) :=
  rigs.map build_rig

/-- An integer rig parameter as registered by `bpy.props.IntProperty`. -/
structure IntProperty where
  pname : String
  defaultValue : Int
  minValue : Int
  description : String
deriving DecidableEq

/-- Translation of `Rig.add_parameters` (basic_tongue.py lines 111-118):
`params.bbones = bpy.props.IntProperty(name='B-Bone Segments', default=10,
min=1, description='Number of B-Bone segments')`. -/
def bbones_property : IntProperty :=
  ⟨"B-Bone Segments", 10, 1, "Number of B-Bone segments"⟩

/-- The rig state touched by `Rig.initialize`: the `params.bbones` value
and the `bbone_segments` attribute inherited from the base rig. -/
structure RigState where
  params_bbones : Int
  bbone_segments : Int
deriving DecidableEq

/-- Translation of `Rig.initialize` (basic_tongue.py lines 25-28):
`self.bbone_segments = self.params.bbones`; the params are unchanged. -/
def rigInitState (s : RigState) : RigState :=
  ⟨s.params_bbones, s.params_bbones⟩

/-! ### Sheen material exporter
(io_scene_gltf2/.../gltf2_blender_gather_materials_sheen.py)

The material socket graph reader (`gltf2_blender_get.get_socket`,
`get_factor_from_socket`, `has_image_node_from_socket`) and
`gather_texture_info` are external collaborators per spec section 6; each
socket is modelled by the answers those collaborators give for it. -/

/-- Modelled from the spec: a color socket as seen through the socket
graph reader — whether it is a NodeSocket instance, whether it is linked,
its default RGBA value, the factor found upstream (if any), whether an
image node feeds it, and the texture/uvmap info gathered for it. -/
structure ColorSocket where
  isNodeSocket : Bool
  isLinked : Bool
  defaultValue : List ℚ
  upstreamFactor : Option (List ℚ)
  hasImageNode : Bool
  textureInfo : String
  uvmapInfo : String
deriving DecidableEq

/-- Modelled from the spec: a scalar socket as seen through the socket
graph reader. -/
structure ValueSocket where
  isNodeSocket : Bool
  isLinked : Bool
  defaultValue : ℚ
  upstreamFactor : Option ℚ
  hasImageNode : Bool
  textureInfo : String
  uvmapInfo : String
deriving DecidableEq

/-- A material restricted to what `export_sheen` reads:
`get_socket(material, "sheenColor")` and
`get_socket(material, "sheenRoughness")`, each possibly absent. -/
structure Material where
  sheenColor : Option ColorSocket
  sheenRoughness : Option ValueSocket
deriving DecidableEq

/-- The `sheen_extension` dictionary: the four keys the exporter may set. -/
structure SheenExtension where
  sheenColorFactor : Option (List ℚ)
  sheenColorTexture : Option String
  sheenRoughnessFactor : Option ℚ
  sheenRoughnessTexture : Option String
deriving DecidableEq

/-- The `uvmap_infos` dictionary: the two keys the exporter may set. -/
structure UvmapInfos where
  sheenColorTexture : Option String
  sheenRoughnessTexture : Option String
deriving DecidableEq

/-- The empty `uvmap_infos` dictionary. -/
def emptyUvmap : UvmapInfos := ⟨none, none⟩

/-- The `Extension` wrapper returned by the exporter. -/
structure Extension where
  extName : String
  extension : SheenExtension
  required : Bool
deriving DecidableEq

/-- Translation of the sheenColor block of `export_sheen` (lines 25-46):
when the socket is a NodeSocket and not linked, `default_value[:3]` is
recorded as factor unless it is black; otherwise the upstream factor
(replaced by [1,1,1] when None) is recorded unless it is black, and when
an image node feeds the socket a texture and its uvmap info are gathered.
Returns (factor, texture, uvmap) contributions. -/
def sheen_color_part (cs : ColorSocket) :
    Option (List ℚ) × Option String × Option String :=
  if cs.isNodeSocket && !cs.isLinked then
    let color := cs.defaultValue.take 3
    (if color ≠ [0, 0, 0] then some color else none, none, none)
  else
    let fac := cs.upstreamFactor.getD [1, 1, 1]
    let cf := if fac ≠ [0, 0, 0] then some fac else none
    if cs.hasImageNode then (cf, some cs.textureInfo, some cs.uvmapInfo)
    else (cf, none, none)

/-- Translation of the sheenRoughness block of `export_sheen` (lines
48-69), symmetric to the color block with scalar values and default 0.0
(resp. fallback factor 1.0). -/
def sheen_roughness_part (rs : ValueSocket) :
    Option ℚ × Option String × Option String :=
  if rs.isNodeSocket && !rs.isLinked then
    (if rs.defaultValue ≠ 0 then some rs.defaultValue else none, none, none)
  else
    let fac := rs.upstreamFactor.getD 1
    let rf := if fac ≠ 0 then some fac else none
    if rs.hasImageNode then (rf, some rs.textureInfo, some rs.uvmapInfo)
    else (rf, none, none)

/-- Translation of `export_sheen` (lines 11-71): if either socket is
missing the function returns `(None, dict())`; otherwise the two blocks
run in sequence filling `sheen_extension` and `uvmap_infos`, and an
`Extension('KHR_materials_sheen', sheen_extension, False)` is returned. -/
def export_sheen (mat : Material) : Option Extension × UvmapInfos :=
  match mat.sheenColor, mat.sheenRoughness with
  | some cs, some rs =>
    let c := sheen_color_part cs
    let r := sheen_roughness_part rs
    (some ⟨"KHR_materials_sheen", ⟨c.1, c.2.1, r.1, r.2.1⟩, false⟩,
     ⟨c.2.2, r.2.2⟩)
  | _, _ => (none, emptyUvmap)

/-- A sheenColor socket linked to an image node with no explicit
upstream factor. -/
def linkedColorSocket : ColorSocket :=
  ⟨true, true, [0, 0, 0, 1], none, true, "colorTex", "uv0"⟩

/-- A sheenRoughness socket that is unlinked at its default 0.0. -/
def plainRoughSocket : ValueSocket :=
  ⟨true, false, 0, none, false, "", ""⟩

/-- A material whose sheenColor socket is linked to an image node with no
explicit upstream factor, and whose sheenRoughness socket is unlinked at
its default 0.0. -/
def linkedColorMat : Material :=
  ⟨some linkedColorSocket, some plainRoughSocket⟩

/-- An unlinked sheenColor socket holding a non-black default color. -/
def unlinkedColorSocket : ColorSocket :=
  ⟨true, false, [1 / 2, 1 / 4, 0, 1], none, false, "", ""⟩

/-- An unlinked sheenRoughness socket holding a nonzero default. -/
def unlinkedValueSocket : ValueSocket :=
  ⟨true, false, 3 / 10, none, false, "", ""⟩

/-- A material with both sheen sockets unlinked at non-default values. -/
def unlinkedMat : Material :=
  ⟨some unlinkedColorSocket, some unlinkedValueSocket⟩

/-- A sheenRoughness socket linked to an image node. -/
def linkedRoughSocket : ValueSocket :=
  ⟨true, true, 0, none, true, "roughTex", "uv1"⟩

/-- A mixed material: unlinked non-default sheenColor socket next to a
linked sheenRoughness socket. -/
def mixedMat : Material :=
  ⟨some unlinkedColorSocket, some linkedRoughSocket⟩

/-! ### DXF version tables (io_import_dxf/dxfgrabber/const.py) -/

/-- Translation of the `acadrelease` dictionary (const.py lines 21-29),
mapping AutoCAD version codes to release names. -/
def acadrelease : List (String × String) :=
  [("AC1009", "R12"),
   ("AC1012", "R13"),
   ("AC1014", "R14"),
   ("AC1015", "R2000"),
   ("AC1018", "R2004"),
   ("AC1021", "R2007"),
   ("AC1024", "R2010")]

/-- Translation of the `dxfversion` comprehension (const.py lines 31-33):
each (code, release) item of `acadrelease` contributes the swapped entry
release ↦ code. -/
def dxfversion : List (String × String) :=
  acadrelease.map (fun p => (p.2, p.1))

/-! ### Theorems -/

/-- Shared index formula: the influence of the i-th tongue constraint. -/
theorem influence_at_tongue (org : List String) (master : String) (i : Nat)
    (hi : i < org.length - 1) :
    influence_at (tongue_constraints org master) i
      = 1 - ((i : ℚ) + 1) / (org.length : ℚ) := by
  have hlen : (make_follow_chain org).length = org.length - 1 := by
    simp [make_follow_chain]
  have hi' : i < (make_follow_chain org).length := by omega
  unfold influence_at tongue_constraints rig_follow_chain
  rw [List.getElem?_map, List.getElem?_enum, List.getElem?_eq_getElem hi']
  simp [add_comm]

/-- C1: the copy-transforms influence on follow bone i equals 1 - (i+1)/N;
influences strictly decrease in i, follow[0] is the largest and below 1,
follow[N-2] equals 1/N and is positive, and for N = 3 there are exactly
two follow constraints with influences 2/3 and 1/3. -/
theorem rig_follow_chain_influences (org : List String) (master : String)
    (h3 : 3 ≤ org.length) :
    (tongue_constraints org master).length = org.length - 1 ∧
    (∀ i, i < org.length - 1 →
      influence_at (tongue_constraints org master) i
        = 1 - ((i : ℚ) + 1) / (org.length : ℚ)) ∧
    (∀ i j, i < j → j < org.length - 1 →
      influence_at (tongue_constraints org master) j
        < influence_at (tongue_constraints org master) i) ∧
    influence_at (tongue_constraints org master) 0 < 1 ∧
    (∀ i, i < org.length - 1 →
      influence_at (tongue_constraints org master) i
        ≤ influence_at (tongue_constraints org master) 0) ∧
    influence_at (tongue_constraints org master) (org.length - 2)
      = 1 / (org.length : ℚ) ∧
    0 < influence_at (tongue_constraints org master) (org.length - 2) ∧
    (org.length = 3 →
      (make_follow_chain org).length = 2 ∧
      influence_at (tongue_constraints org master) 0 = 2 / 3 ∧
      influence_at (tongue_constraints org master) 1 = 1 / 3) := by
  have hN : (0 : ℚ) < (org.length : ℚ) := by
    exact_mod_cast Nat.lt_of_lt_of_le (by norm_num) h3
  have hmono : ∀ i j, i < j → j < org.length - 1 →
      influence_at (tongue_constraints org master) j
        < influence_at (tongue_constraints org master) i := by
    intro i j hij hj
    rw [influence_at_tongue org master i (by omega),
        influence_at_tongue org master j hj]
    have h1 : ((i : ℚ) + 1) < ((j : ℚ) + 1) := by
      exact_mod_cast Nat.succ_lt_succ hij
    have h2 : ((i : ℚ) + 1) / (org.length : ℚ)
        < ((j : ℚ) + 1) / (org.length : ℚ) := by
      rw [div_lt_div_iff₀ hN hN]
      exact mul_lt_mul_of_pos_right h1 hN
    linarith
  have hlast : influence_at (tongue_constraints org master) (org.length - 2)
      = 1 / (org.length : ℚ) := by
    rw [influence_at_tongue org master (org.length - 2) (by omega),
        Nat.cast_sub (by omega : 2 ≤ org.length)]
    have hq : (org.length : ℚ) ≠ 0 := ne_of_gt hN
    field_simp
    ring
  refine ⟨?_, fun i hi => influence_at_tongue org master i hi, hmono, ?_, ?_,
    hlast, ?_, ?_⟩
  · simp [tongue_constraints, rig_follow_chain, make_follow_chain]
  · rw [influence_at_tongue org master 0 (by omega)]
    have : 0 < 1 / (org.length : ℚ) := by positivity
    push_cast
    linarith
  · intro i hi
    rcases Nat.eq_zero_or_pos i with h0 | h0
    · subst h0; exact le_refl _
    · exact le_of_lt (hmono 0 i h0 hi)
  · rw [hlast]; positivity
  · intro hNeq
    refine ⟨by simp [make_follow_chain, hNeq], ?_, ?_⟩
    · rw [influence_at_tongue org master 0 (by omega), hNeq]; norm_num
    · rw [influence_at_tongue org master 1 (by omega), hNeq]; norm_num

/-- C1 witness: chain of three bones, influences 2/3 and 1/3. -/
theorem rig_follow_chain_influences_witness :
    3 ≤ (["a", "b", "c"] : List String).length ∧
    influence_at (tongue_constraints ["a", "b", "c"] "m") 0 = 2 / 3 ∧
    influence_at (tongue_constraints ["a", "b", "c"] "m") 1 = 1 / 3 :=
  ⟨by decide,
   ((rig_follow_chain_influences ["a", "b", "c"] "m" (by decide)).2.2.2.2.2.2.2
      rfl).2⟩

/-- C2: the follow chain has exactly N-1 bones, one per original bone
after the first, in the same relative order as the input. -/
theorem make_follow_chain_spec (org : List String) (_h3 : 3 ≤ org.length) :
    (make_follow_chain org).length = org.length - 1 ∧
    ∀ i, i < org.length - 1 →
      (make_follow_chain org)[i]? =
        (org[i + 1]?).map (fun o => make_derived_name o "mch") := by
  constructor
  · simp [make_follow_chain]
  · intro i hi
    simp [make_follow_chain, List.getElem?_drop, Nat.add_comm]

/-- C2 witness: chain of three bones gives two follow bones in order. -/
theorem make_follow_chain_spec_witness :
    (make_follow_chain ["a", "b", "c"]).length
        = (["a", "b", "c"] : List String).length - 1 ∧
    ∀ i, i < (["a", "b", "c"] : List String).length - 1 →
      (make_follow_chain ["a", "b", "c"])[i]? =
        ((["a", "b", "c"] : List String)[i + 1]?).map
          (fun o => make_derived_name o "mch") :=
  make_follow_chain_spec ["a", "b", "c"] (by decide)

/-- C3: the tweak chain is parented positionally to the list
[master, follow[0], ..., follow[n-1], root]: tweak 0 to the master,
tweak k (1 ≤ k ≤ n) to follow[k-1], and the remaining tweak, if any,
to the rig parent bone. -/
theorem parent_tweak_chain_spec (master root : String)
    (follow tweak : List String) :
    (parent_tweak_chain master root follow tweak).length
        = min tweak.length (follow.length + 2) ∧
    (∀ _ : 0 < tweak.length,
      (parent_tweak_chain master root follow tweak)[0]? =
        some (tweak[0], master)) ∧
    (∀ k (h1 : 1 ≤ k) (h2 : k < tweak.length) (h3 : k ≤ follow.length),
      (parent_tweak_chain master root follow tweak)[k]? =
        some (tweak[k], follow[k - 1])) ∧
    (∀ _ : follow.length + 1 < tweak.length,
      (parent_tweak_chain master root follow tweak)[follow.length + 1]? =
        some (tweak[follow.length + 1], root)) := by
  simp only [parent_tweak_chain]
  refine ⟨?_, ?_, ?_, ?_⟩
  · rw [List.length_zip]
    simp only [List.length_cons, List.length_append, List.length_singleton,
      List.length_nil]
  · intro h0
    have hb : 0 < (tweak.zip (master :: (follow ++ [root]))).length := by
      rw [List.length_zip]
      simp only [List.length_cons, List.length_append, List.length_singleton,
        List.length_nil]
      omega
    rw [List.getElem?_eq_getElem hb, List.getElem_zip]
    rfl
  · intro k hk1 hk2 hk3
    obtain ⟨j, rfl⟩ : ∃ j, k = j + 1 := ⟨k - 1, by omega⟩
    have hb : j + 1 < (tweak.zip (master :: (follow ++ [root]))).length := by
      rw [List.length_zip]
      simp only [List.length_cons, List.length_append, List.length_singleton,
        List.length_nil]
      omega
    have hj : j < follow.length := by omega
    rw [List.getElem?_eq_getElem hb, List.getElem_zip]
    simp [List.getElem_cons_succ, List.getElem_append_left hj]
  · intro h1
    have hb : follow.length + 1
        < (tweak.zip (master :: (follow ++ [root]))).length := by
      rw [List.length_zip]
      simp only [List.length_cons, List.length_append, List.length_singleton,
        List.length_nil]
      omega
    rw [List.getElem?_eq_getElem hb, List.getElem_zip]
    have hr : ∀ h : follow.length < (follow ++ [root]).length,
        (follow ++ [root])[follow.length] = root := by
      intro h
      rw [List.getElem_append_right (le_refl follow.length)]
      simp
    simp [List.getElem_cons_succ, hr]

/-- C3 witness: four tweaks over two follow bones parent to
[master, follow 0, follow 1, root]. -/
theorem parent_tweak_chain_spec_witness :
    (parent_tweak_chain "m" "rt" ["f0", "f1"] ["t0", "t1", "t2", "t3"])[0]? =
        some ("t0", "m") ∧
    (parent_tweak_chain "m" "rt" ["f0", "f1"] ["t0", "t1", "t2", "t3"])[2]? =
        some ("t2", "f1") ∧
    (parent_tweak_chain "m" "rt" ["f0", "f1"] ["t0", "t1", "t2", "t3"])[3]? =
        some ("t3", "rt") :=
  ⟨(parent_tweak_chain_spec "m" "rt" ["f0", "f1"]
      ["t0", "t1", "t2", "t3"]).2.1 (by decide),
   (parent_tweak_chain_spec "m" "rt" ["f0", "f1"]
      ["t0", "t1", "t2", "t3"]).2.2.1 2 (by decide) (by decide) (by decide),
   (parent_tweak_chain_spec "m" "rt" ["f0", "f1"]
      ["t0", "t1", "t2", "t3"]).2.2.2 (by decide)⟩

/-- C4: a chain shorter than min_chain_length fails with the
configuration error, yields no bones, and building an armature with such
a rig leaves every other rig's build result exactly as it would be on its
own. -/
theorem build_rig_short_chain (chain : List String)
    (h : chain.length < min_chain_length) :
    build_rig chain
        = Except.error "Input to rig type must be a chain of 3 or more bones" ∧
    (∀ bones, build_rig chain ≠ Except.ok bones) ∧
    ∀ pre post, build_all (pre ++ chain :: post) =
      build_all pre ++
        Except.error "Input to rig type must be a chain of 3 or more bones"
          :: build_all post := by
  have he : build_rig chain
      = Except.error "Input to rig type must be a chain of 3 or more bones" := by
    simp [build_rig, h]
  refine ⟨he, ?_, ?_⟩
  · intro bones hc
    rw [he] at hc
    exact Except.noConfusion hc
  · intro pre post
    simp [build_all, he]

/-- C4 witness: a single-bone chain fails and leaves neighbours alone. -/
theorem build_rig_short_chain_witness :
    build_rig ["a"]
        = Except.error "Input to rig type must be a chain of 3 or more bones" :=
  (build_rig_short_chain ["a"] (by decide)).1

/-- C6: when neither sheen socket exists, export_sheen returns no
extension and the empty uvmap mapping. -/
theorem export_sheen_no_sockets (m : Material)
    (hc : m.sheenColor = none) (hr : m.sheenRoughness = none) :
    export_sheen m = (none, emptyUvmap) := by
  rcases m with ⟨c, r⟩
  change c = none at hc
  change r = none at hr
  subst hc
  subst hr
  rfl

/-- C6 witness: the material with no sheen sockets at all. -/
theorem export_sheen_no_sockets_witness :
    export_sheen ⟨none, none⟩ = (none, emptyUvmap) :=
  export_sheen_no_sockets ⟨none, none⟩ rfl rfl

/-- C9: one missing sheen socket already yields the no-extension result,
and an extension is produced only when both sockets exist. -/
theorem export_sheen_missing_socket (m : Material) :
    ((m.sheenColor = none ∨ m.sheenRoughness = none) →
      export_sheen m = (none, emptyUvmap)) ∧
    ((export_sheen m).1.isSome →
      m.sheenColor.isSome ∧ m.sheenRoughness.isSome) := by
  rcases m with ⟨c, r⟩
  rcases c with _ | cs <;> rcases r with _ | rs <;>
    simp [export_sheen, emptyUvmap]

/-- C9 witness: missing color socket alone forces the empty result. -/
theorem export_sheen_missing_socket_witness :
    export_sheen ⟨none, some plainRoughSocket⟩ = (none, emptyUvmap) :=
  (export_sheen_missing_socket ⟨none, some plainRoughSocket⟩).1 (Or.inl rfl)

/-- C7: per socket, an existing unlinked NodeSocket holding a
non-default value has that value recorded as the corresponding factor,
a default value records no factor, and no texture is recorded for it —
independently of whether the other socket is linked. -/
theorem export_sheen_unlinked_factors (m : Material)
    (cs : ColorSocket) (rs : ValueSocket)
    (hc : m.sheenColor = some cs) (hr : m.sheenRoughness = some rs) :
    ∃ e, (export_sheen m).1 = some e ∧
      (cs.isNodeSocket = true → cs.isLinked = false →
        (cs.defaultValue.take 3 ≠ [0, 0, 0] →
          e.extension.sheenColorFactor = some (cs.defaultValue.take 3)) ∧
        (cs.defaultValue.take 3 = [0, 0, 0] →
          e.extension.sheenColorFactor = none) ∧
        e.extension.sheenColorTexture = none) ∧
      (rs.isNodeSocket = true → rs.isLinked = false →
        (rs.defaultValue ≠ 0 →
          e.extension.sheenRoughnessFactor = some rs.defaultValue) ∧
        (rs.defaultValue = 0 →
          e.extension.sheenRoughnessFactor = none) ∧
        e.extension.sheenRoughnessTexture = none) := by
  rcases m with ⟨c, r⟩
  change c = some cs at hc
  change r = some rs at hr
  subst hc
  subst hr
  refine ⟨_, rfl, ?_, ?_⟩ <;>
    intro hn hl <;>
    refine ⟨?_, ?_, ?_⟩ <;>
    simp [export_sheen, sheen_color_part, sheen_roughness_part, hn, hl]

/-- C7 witness: on a mixed material the unlinked color socket at
(1/2, 1/4, 0) records exactly that factor and no color texture, even
though the roughness socket is linked. -/
theorem export_sheen_unlinked_factors_witness :
    ∃ e, (export_sheen mixedMat).1 = some e ∧
      (unlinkedColorSocket.isNodeSocket = true →
        unlinkedColorSocket.isLinked = false →
        (unlinkedColorSocket.defaultValue.take 3 ≠ [0, 0, 0] →
          e.extension.sheenColorFactor
            = some (unlinkedColorSocket.defaultValue.take 3)) ∧
        (unlinkedColorSocket.defaultValue.take 3 = [0, 0, 0] →
          e.extension.sheenColorFactor = none) ∧
        e.extension.sheenColorTexture = none) ∧
      (linkedRoughSocket.isNodeSocket = true →
        linkedRoughSocket.isLinked = false →
        (linkedRoughSocket.defaultValue ≠ 0 →
          e.extension.sheenRoughnessFactor
            = some linkedRoughSocket.defaultValue) ∧
        (linkedRoughSocket.defaultValue = 0 →
          e.extension.sheenRoughnessFactor = none) ∧
        e.extension.sheenRoughnessTexture = none) :=
  export_sheen_unlinked_factors mixedMat unlinkedColorSocket
    linkedRoughSocket rfl rfl

/-- C5 counterexample: for a material whose sheenColor socket is linked
to an image source, export_sheen records the texture AND a factor of
[1,1,1]; the texture does not replace the factor in the returned
extension record. -/
theorem export_sheen_texture_also_records_factor :
    ((export_sheen linkedColorMat).1.map
        (fun e => e.extension.sheenColorTexture)) = some (some "colorTex") ∧
    ((export_sheen linkedColorMat).1.map
        (fun e => e.extension.sheenColorFactor)) = some (some [1, 1, 1]) ∧
    ((export_sheen linkedColorMat).1.map
        (fun e => e.extension.sheenColorFactor)) ≠ some none := by
  refine ⟨rfl, rfl, ?_⟩
  decide

/-- C5 amended: a socket linked with an image source gets a texture
reference recorded (with its uvmap info); the factor is not replaced but
recorded alongside, taken from upstream and defaulting to [1,1,1]
(resp. 1.0), unless that factor is zero. -/
theorem export_sheen_linked_image_texture (m : Material)
    (cs : ColorSocket) (rs : ValueSocket)
    (hc : m.sheenColor = some cs) (hr : m.sheenRoughness = some rs) :
    ∃ e, (export_sheen m).1 = some e ∧
      (cs.isLinked = true → cs.hasImageNode = true →
        e.extension.sheenColorTexture = some cs.textureInfo ∧
        (export_sheen m).2.sheenColorTexture = some cs.uvmapInfo ∧
        (cs.upstreamFactor.getD [1, 1, 1] ≠ [0, 0, 0] →
          e.extension.sheenColorFactor
            = some (cs.upstreamFactor.getD [1, 1, 1]))) ∧
      (rs.isLinked = true → rs.hasImageNode = true →
        e.extension.sheenRoughnessTexture = some rs.textureInfo ∧
        (export_sheen m).2.sheenRoughnessTexture = some rs.uvmapInfo ∧
        (rs.upstreamFactor.getD 1 ≠ 0 →
          e.extension.sheenRoughnessFactor
            = some (rs.upstreamFactor.getD 1))) := by
  rcases m with ⟨c, r⟩
  change c = some cs at hc
  change r = some rs at hr
  subst hc
  subst hr
  refine ⟨_, rfl, ?_, ?_⟩ <;>
    intro hl hi <;>
    refine ⟨?_, ?_, ?_⟩ <;>
    simp [export_sheen, sheen_color_part, sheen_roughness_part, hl, hi]

/-- C5 amended witness: the linked-color material records the texture,
its uvmap info, and the fallback factor [1,1,1]. -/
theorem export_sheen_linked_image_texture_witness :
    ∃ e, (export_sheen linkedColorMat).1 = some e ∧
      (linkedColorSocket.isLinked = true →
        linkedColorSocket.hasImageNode = true →
        e.extension.sheenColorTexture = some linkedColorSocket.textureInfo ∧
        (export_sheen linkedColorMat).2.sheenColorTexture
          = some linkedColorSocket.uvmapInfo ∧
        (linkedColorSocket.upstreamFactor.getD [1, 1, 1] ≠ [0, 0, 0] →
          e.extension.sheenColorFactor
            = some (linkedColorSocket.upstreamFactor.getD [1, 1, 1]))) ∧
      (plainRoughSocket.isLinked = true →
        plainRoughSocket.hasImageNode = true →
        e.extension.sheenRoughnessTexture
          = some plainRoughSocket.textureInfo ∧
        (export_sheen linkedColorMat).2.sheenRoughnessTexture
          = some plainRoughSocket.uvmapInfo ∧
        (plainRoughSocket.upstreamFactor.getD 1 ≠ 0 →
          e.extension.sheenRoughnessFactor
            = some (plainRoughSocket.upstreamFactor.getD 1))) :=
  export_sheen_linked_image_texture linkedColorMat linkedColorSocket
    plainRoughSocket rfl rfl

/-- C8: the b-bone segments parameter defaults to 10 with minimum 1, and
initialization copies it into the bbone_segments setting without
touching the parameter itself. -/
theorem bbones_parameter_spec :
    bbones_property.defaultValue = 10 ∧ bbones_property.minValue = 1 ∧
    ∀ s : RigState, (rigInitState s).bbone_segments = s.params_bbones ∧
      (rigInitState s).params_bbones = s.params_bbones :=
  ⟨rfl, rfl, fun _ => ⟨rfl, rfl⟩⟩

/-- C10: the two DXF version tables are exact inverses: every entry of
each table round-trips through the other, and the keys of both tables
are free of duplicates. -/
theorem dxf_version_tables_inverse :
    (∀ p ∈ acadrelease, dxfversion.lookup p.2 = some p.1) ∧
    (∀ p ∈ dxfversion, acadrelease.lookup p.2 = some p.1) ∧
    (acadrelease.map Prod.fst).Nodup ∧
    (dxfversion.map Prod.fst).Nodup := by
  decide

/-- C10 witness: AC1009 maps to R12 and back. -/
theorem dxf_version_tables_inverse_witness :
    dxfversion.lookup "R12" = some "AC1009" :=
  dxf_version_tables_inverse.1 ("AC1009", "R12") (by decide)
